import Mathlib

/-!
Shallow embedding of the Valuedi_Web bootstrap scaffold.

Source files embedded:
- src/src/lib/queryClient.ts : a module-level singleton `queryClient`,
  constructed by `new QueryClient({ defaultOptions: { queries: {
  refetchOnWindowFocus: false, retry: 1, staleTime: 5 * 60 * 1000 } } })`.
- src/src/App.tsx : `function App()` returning
  `<QueryClientProvider client={queryClient}><HomePage /></QueryClientProvider>`.

The TanStack Query library itself is an external dependency, so the
`QueryClient` constructor is embedded parametrically: it merges the
configuration object written in the source onto arbitrary library
defaults, and tags each constructed client with a fresh allocation id
(object identity).
-/

/-- Default options for queries, the three fields set by
src/src/lib/queryClient.ts (refetchOnWindowFocus, retry, staleTime in
milliseconds). -/
structure QueryDefaults where
  refetchOnWindowFocus : Bool
  retry : Nat
  staleTime : Nat
  deriving DecidableEq, Repr

/-- Default options for mutations; the source never sets any, so only the
library-supplied value matters. -/
structure MutationDefaults where
  retry : Nat
  deriving DecidableEq, Repr

/-- The resolved `defaultOptions` record stored on a constructed client. -/
structure DefaultOptions where
  queries : QueryDefaults
  mutations : MutationDefaults
  deriving DecidableEq, Repr

/-- The defaults the query library itself would supply for every
configurable field of a client.  The library is an external dependency,
so these are left abstract (theorems quantify over them). -/
structure LibraryDefaults where
  queries : QueryDefaults
  mutations : MutationDefaults
  queryCacheId : Nat
  mutationCacheId : Nat
  deriving DecidableEq, Repr

/-- The `defaultOptions` key of the constructor argument: each sub-record
is optional, absent ones fall back to the library defaults. -/
structure DefaultOptionsConfig where
  queries : Option QueryDefaults
  mutations : Option MutationDefaults
  deriving DecidableEq, Repr

/-- The configuration object passed to the `QueryClient` constructor:
every key is optional. -/
structure QueryClientConfig where
  defaultOptions : Option DefaultOptionsConfig
  queryCacheId : Option Nat
  mutationCacheId : Option Nat
  deriving DecidableEq, Repr

/-- A constructed query client.  `id` is the allocation identity (two
separately constructed clients have different ids even when their
configuration coincides). -/
structure QueryClient where
  id : Nat
  defaultOptions : DefaultOptions
  queryCacheId : Nat
  mutationCacheId : Nat
  deriving DecidableEq, Repr

/-- Allocator state: the next fresh object identity. -/
structure AllocState where
  nextId : Nat
  deriving DecidableEq, Repr

/-- Resolve the optional `defaultOptions` key of the constructor argument
against the library defaults. -/
def resolveDefaultOptions (lib : LibraryDefaults) :
    Option DefaultOptionsConfig → DefaultOptions
  | none => { queries := lib.queries, mutations := lib.mutations }
  | some d =>
      { queries := d.queries.getD lib.queries,
        mutations := d.mutations.getD lib.mutations }

/-- The `new QueryClient(config)` constructor: allocates a fresh identity
and resolves every configuration key against the library defaults. -/
def newQueryClient (lib : LibraryDefaults) (cfg : QueryClientConfig)
    (s : AllocState) : QueryClient × AllocState :=
  ({ id := s.nextId,
     defaultOptions := resolveDefaultOptions lib cfg.defaultOptions,
     queryCacheId := cfg.queryCacheId.getD lib.queryCacheId,
     mutationCacheId := cfg.mutationCacheId.getD lib.mutationCacheId },
   { nextId := s.nextId + 1 })

/-- The configuration object literal written in src/src/lib/queryClient.ts:
only `defaultOptions.queries` is given, with refetchOnWindowFocus false,
retry 1 and staleTime 5 * 60 * 1000 milliseconds. -/
def appQueryClientConfig : QueryClientConfig :=
  { defaultOptions :=
      some { queries :=
               some { refetchOnWindowFocus := false,
                      retry := 1,
                      staleTime := 5 * 60 * 1000 },
             mutations := none },
    queryCacheId := none,
    mutationCacheId := none }

/-- The top-level initializer of src/src/lib/queryClient.ts, run once when
the module is first evaluated.  Module initializers may in general throw;
this one only evaluates a literal and calls the constructor, both total. -/
def evalQueryClientModule (lib : LibraryDefaults) (s : AllocState) :
    Except String (QueryClient × AllocState) :=
  Except.ok (newQueryClient lib appQueryClientConfig s)

/-- The module-level singleton `queryClient` as constructed at startup
(first allocation, id 0). -/
def bootClient (lib : LibraryDefaults) : QueryClient :=
  (newQueryClient lib appQueryClientConfig { nextId := 0 }).1

example :
    (bootClient { queries := { refetchOnWindowFocus := true, retry := 3, staleTime := 0 },
                  mutations := { retry := 0 },
                  queryCacheId := 7, mutationCacheId := 8 }).defaultOptions.queries =
      { refetchOnWindowFocus := false, retry := 1, staleTime := 300000 } := by decide

/-- The exports of src/src/lib/queryClient.ts as seen by an importer:
the single export is the `queryClient` value. -/
structure Registry where
  queryClient : QueryClient
  deriving DecidableEq, Repr

/-- The named import `import \x7b queryClient \x7d from './lib/queryClient'`
at the top of src/src/App.tsx: it hands every importer the very value the
module initializer stored. -/
def importQueryClient (reg : Registry) : QueryClient :=
  reg.queryClient

/-- Ambient mutable client state (the Zustand stores the convention
reserves space for; none of the present code reads it). -/
structure World where
  clock : Nat
  store : Nat
  deriving DecidableEq, Repr

mutual
/-- A rendered element tree: a query-provider node carrying its client
value, a fragment grouping siblings, or the page component. -/
inductive Element where
  | provider (client : QueryClient) (children : ElementList)
  | fragment (children : ElementList)
  | homePage
/-- A list of sibling elements. -/
inductive ElementList where
  | nil
  | cons (head : Element) (tail : ElementList)
end

/-- A component renders against the module registry and the ambient
mutable world, and may in general fail (throw during render). -/
def Component : Type :=
  Registry → World → Except String Element

/-- Modelled from the spec: the HomePage component (src/pages, not
included under src) renders the single initial page and has no failure
path ("render exactly one top-level page"). -/
def HomePage : Component :=
  fun _ _ => Except.ok Element.homePage

/-- src/src/App.tsx: `function App()` returns the imported `queryClient`
singleton installed as the provider value, wrapping the HomePage element;
it takes no props and reads nothing from the mutable world. -/
def App : Component :=
  fun reg w =>
    match HomePage reg w with
    | Except.ok home =>
        Except.ok (Element.provider (importQueryClient reg)
          (ElementList.cons home ElementList.nil))
    | Except.error e => Except.error e

mutual
/-- Number of query-provider scopes in an element tree. -/
def countProviders : Element → Nat
  | Element.provider _ cs => 1 + countProvidersL cs
  | Element.fragment cs => countProvidersL cs
  | Element.homePage => 0
/-- Number of query-provider scopes in a sibling list. -/
def countProvidersL : ElementList → Nat
  | ElementList.nil => 0
  | ElementList.cons e es => countProviders e + countProvidersL es
end

mutual
/-- Number of page components in an element tree. -/
def countPages : Element → Nat
  | Element.provider _ cs => countPagesL cs
  | Element.fragment cs => countPagesL cs
  | Element.homePage => 1
/-- Number of page components in a sibling list. -/
def countPagesL : ElementList → Nat
  | ElementList.nil => 0
  | ElementList.cons e es => countPages e + countPagesL es
end

mutual
/-- Whether some page component sits strictly inside a provider scope of
the tree. -/
def pageUnderProvider : Element → Bool
  | Element.provider _ cs => decide (0 < countPagesL cs) || pageUnderProviderL cs
  | Element.fragment cs => pageUnderProviderL cs
  | Element.homePage => false
/-- List version of `pageUnderProvider`. -/
def pageUnderProviderL : ElementList → Bool
  | ElementList.nil => false
  | ElementList.cons e es => pageUnderProvider e || pageUnderProviderL es
end

mutual
/-- Whether a page component is reachable from the root without crossing
a provider scope (a sibling of every provider rather than a descendant). -/
def pageOutsideProviders : Element → Bool
  | Element.provider _ _ => false
  | Element.fragment cs => pageOutsideProvidersL cs
  | Element.homePage => true
/-- List version of `pageOutsideProviders`. -/
def pageOutsideProvidersL : ElementList → Bool
  | ElementList.nil => false
  | ElementList.cons e es => pageOutsideProviders e || pageOutsideProvidersL es
end

/-- The client value installed at the root of an element tree, when the
root is a provider node. -/
def providerClient : Element → Option QueryClient
  | Element.provider c _ => some c
  | Element.fragment _ => none
  | Element.homePage => none

/-- The application modules, in the sense of the ES module system. -/
inductive AppModule where
  | queryClientMod
  | pagesMod
  | appMod
  | mainMod
  deriving DecidableEq, Repr

/-- Static import lists, in source order, external packages omitted:
src/src/App.tsx imports ./lib/queryClient and then ./pages.  Modelled
from the spec: main.tsx (the entry point, not included under src)
imports App and starts the root render ("the configuration object is
constructed before the root render"). -/
def moduleImports : AppModule → List AppModule
  | AppModule.queryClientMod => []
  | AppModule.pagesMod => []
  | AppModule.appMod => [AppModule.queryClientMod, AppModule.pagesMod]
  | AppModule.mainMod => [AppModule.appMod]

/-- ES module evaluation order: depth-first over the static imports,
each module evaluated at most once (fuel bounds the import depth). -/
def visitModule (fuel : Nat) (acc : List AppModule) (m : AppModule) : List AppModule :=
  match fuel with
  | 0 => acc
  | fuel + 1 =>
      if m ∈ acc then acc
      else List.foldl (visitModule fuel) acc (moduleImports m) ++ [m]

/-- The order in which the four modules are evaluated when the entry
point is loaded. -/
def evalOrder : List AppModule :=
  visitModule 4 [] AppModule.mainMod

example :
    evalOrder =
      [AppModule.queryClientMod, AppModule.pagesMod, AppModule.appMod, AppModule.mainMod] := by
  decide

/-- Observable events of a program execution. -/
inductive Event where
  | constructClient (id : Nat)
  | renderRoot
  | fetchStart (key : Nat) (observed : QueryDefaults)
  | storeWrite
  deriving DecidableEq, Repr

/-- State threaded through module evaluation at startup. -/
structure BootState where
  alloc : AllocState
  registryClient : Option QueryClient
  deriving DecidableEq, Repr

/-- Run one module initializer.  Evaluating ./lib/queryClient runs its
top-level constructor call and stores the export; ./pages and App only
define components; the entry point performs the root render, which needs
the imported client to exist. -/
def initModule (lib : LibraryDefaults) (s : BootState) :
    AppModule → Except String (BootState × List Event)
  | AppModule.queryClientMod =>
      match evalQueryClientModule lib s.alloc with
      | Except.ok (c, a) =>
          Except.ok ({ alloc := a, registryClient := some c },
            [Event.constructClient c.id])
      | Except.error e => Except.error e
  | AppModule.pagesMod => Except.ok (s, [])
  | AppModule.appMod => Except.ok (s, [])
  | AppModule.mainMod =>
      match s.registryClient with
      | some _ => Except.ok (s, [Event.renderRoot])
      | none => Except.error "query client missing at root render"

/-- Run a list of module initializers in order, collecting events. -/
def initModules (lib : LibraryDefaults) (s : BootState) :
    List AppModule → Except String (BootState × List Event)
  | [] => Except.ok (s, [])
  | m :: ms =>
      match initModule lib s m with
      | Except.ok (s1, evs) =>
          match initModules lib s1 ms with
          | Except.ok (s2, evs2) => Except.ok (s2, evs ++ evs2)
          | Except.error e => Except.error e
      | Except.error e => Except.error e

/-- Startup: evaluate every module in import order from a fresh state. -/
def boot (lib : LibraryDefaults) : Except String (BootState × List Event) :=
  initModules lib { alloc := { nextId := 0 }, registryClient := none } evalOrder

/-- State of the running application after startup. -/
structure RunState where
  client : QueryClient
  world : World
  cache : List Nat
  deriving DecidableEq, Repr

/-- Operations the running application can perform: a re-render of the
root, a server-state fetch through the shared client (which mutates only
the internal cache and observes the client defaults), and a client-state
store write. -/
inductive Op where
  | rerender
  | fetchOp (key : Nat)
  | setStore (n : Nat)
  deriving DecidableEq, Repr

/-- One step of the running application. -/
def step (s : RunState) : Op → RunState × List Event
  | Op.rerender => (s, [Event.renderRoot])
  | Op.fetchOp k =>
      ({ s with cache := k :: s.cache },
       [Event.fetchStart k s.client.defaultOptions.queries])
  | Op.setStore n =>
      ({ s with world := { s.world with store := n } }, [Event.storeWrite])

/-- Run a list of operations, collecting the final state and the event
trace. -/
def execTrace (s : RunState) : List Op → RunState × List Event
  | [] => (s, [])
  | op :: ops =>
      let r1 := step s op
      let r2 := execTrace r1.1 ops
      (r2.1, r1.2 ++ r2.2)

/-- The run state right after a successful boot. -/
def postBootState (lib : LibraryDefaults) : RunState :=
  { client := bootClient lib, world := { clock := 0, store := 0 }, cache := [] }

/-- The full event trace of an execution: startup events followed by the
events of the requested operations. -/
def programEvents (lib : LibraryDefaults) (ops : List Op) : List Event :=
  match boot lib with
  | Except.ok (s, evs) =>
      match s.registryClient with
      | some c =>
          evs ++ (execTrace { client := c, world := { clock := 0, store := 0 },
                              cache := [] } ops).2
      | none => evs
  | Except.error _ => []

/-- Whether an event is a query-client construction. -/
def isConstructEvent : Event → Bool
  | Event.constructClient _ => true
  | Event.renderRoot => false
  | Event.fetchStart _ _ => false
  | Event.storeWrite => false

/-- Whether an event, if it is a fetch, observes exactly the policy q0. -/
def observesPolicy (q0 : QueryDefaults) : Event → Bool
  | Event.fetchStart _ q => q == q0
  | Event.constructClient _ => true
  | Event.renderRoot => true
  | Event.storeWrite => true

/-- The boot phase of every execution produces exactly the construction
event followed by the root render, and hands the run phase the singleton
client. -/
theorem programEvents_eq (lib : LibraryDefaults) (ops : List Op) :
    programEvents lib ops =
      Event.constructClient 0 :: Event.renderRoot ::
        (execTrace (postBootState lib) ops).2 := rfl

/-- No operation of the running application changes the shared client. -/
theorem execTrace_client (ops : List Op) (s : RunState) :
    (execTrace s ops).1.client = s.client := by
  induction ops generalizing s with
  | nil => rfl
  | cons op ops ih => cases op <;> simp [execTrace, step, ih]

/-- The running application never constructs another client. -/
theorem execTrace_no_construct (ops : List Op) (s : RunState) :
    ((execTrace s ops).2.filter isConstructEvent) = [] := by
  induction ops generalizing s with
  | nil => rfl
  | cons op ops ih => cases op <;> simp [execTrace, step, isConstructEvent, ih]

/-- Every fetch performed by the running application observes the policy
of the client that was installed when the run began. -/
theorem execTrace_policy_all (ops : List Op) (s : RunState) :
    ((execTrace s ops).2.all (observesPolicy s.client.defaultOptions.queries)) = true := by
  induction ops generalizing s with
  | nil => rfl
  | cons op ops ih => cases op <;> simp [execTrace, step, observesPolicy, ih]

/-- C1: inspecting the query client configuration after construction
reports refetchOnWindowFocus = false, retry = 1 (one automatic retry for
failed server-state fetches), and staleTime = 300000 milliseconds,
whatever defaults the library itself would have supplied. -/
theorem c1_config_reports_declared_defaults (lib : LibraryDefaults)
    (s : AllocState) :
    (newQueryClient lib appQueryClientConfig s).1.defaultOptions.queries =
      { refetchOnWindowFocus := false, retry := 1, staleTime := 300000 } := rfl

/-- C2: the tree rendered by the root composition contains exactly one
query-provider scope, some page component is a descendant of that
provider, and no page component sits outside every provider (so the page
is not a sibling of the provider). -/
theorem c2_single_provider_wraps_page (lib : LibraryDefaults) (w : World) :
    ∃ e, App { queryClient := bootClient lib } w = Except.ok e ∧
      countProviders e = 1 ∧ pageUnderProvider e = true ∧
      pageOutsideProviders e = false := by
  refine ⟨Element.provider (bootClient lib)
      (ElementList.cons Element.homePage ElementList.nil), rfl, ?_, ?_, ?_⟩ <;>
    simp [countProviders, countProvidersL, countPages, countPagesL,
      pageUnderProvider, pageUnderProviderL, pageOutsideProviders]

/-- C3: rendering the root composition (which takes no parameters beyond
the ambient module registry and world of the embedding) from the freshly
booted state does not throw and produces exactly one visible top-level
page. -/
theorem c3_render_ok_one_page (lib : LibraryDefaults) (w : World) :
    ∃ e, App { queryClient := bootClient lib } w = Except.ok e ∧
      countPages e = 1 := by
  refine ⟨Element.provider (bootClient lib)
      (ElementList.cons Element.homePage ElementList.nil), rfl, ?_⟩
  simp [countPages, countPagesL]

/-- C4: the query client configuration is constructed exactly once at
startup (every execution trace holds exactly one construction event), and
after any sequence of operations of the running application the observed
client equals the one constructed at startup. -/
theorem c4_constructed_once_never_mutated (lib : LibraryDefaults)
    (ops : List Op) :
    ((programEvents lib ops).filter isConstructEvent).length = 1 ∧
    (execTrace (postBootState lib) ops).1.client = bootClient lib := by
  constructor
  · rw [programEvents_eq]
    simp [isConstructEvent, execTrace_no_construct]
  · exact execTrace_client ops (postBootState lib)

/-- C5: constructing the query client twice from the same configuration
yields two non-aliased instances (distinct identities) whose resolved
default options coincide: construction is deterministic in the
configuration and the library defaults. -/
theorem c5_two_constructions_independent_identical (lib : LibraryDefaults)
    (s : AllocState) :
    (newQueryClient lib appQueryClientConfig s).1.id ≠
      (newQueryClient lib appQueryClientConfig
        (newQueryClient lib appQueryClientConfig s).2).1.id ∧
    (newQueryClient lib appQueryClientConfig s).1.defaultOptions =
      (newQueryClient lib appQueryClientConfig
        (newQueryClient lib appQueryClientConfig s).2).1.defaultOptions := by
  refine ⟨?_, rfl⟩
  simp [newQueryClient]

/-- C6: in every execution trace, the query client is constructed before
the root render begins, and every fetch event observes the fully
initialized policy of the startup configuration. -/
theorem c6_construct_before_render (lib : LibraryDefaults) (ops : List Op) :
    (programEvents lib ops).head? = some (Event.constructClient 0) ∧
    Event.renderRoot ∈ (programEvents lib ops).tail ∧
    ((programEvents lib ops).all (observesPolicy
      { refetchOnWindowFocus := false, retry := 1, staleTime := 300000 })) = true :=
  ⟨rfl, List.mem_cons_self _ _, execTrace_policy_all ops (postBootState lib)⟩

/-- C7: constructing the query client configuration never produces an
error: the module initializer succeeds from every allocator state, and
the whole boot sequence succeeds. -/
theorem c7_construction_never_errors (lib : LibraryDefaults)
    (s : AllocState) :
    (∃ c a, evalQueryClientModule lib s = Except.ok (c, a)) ∧
    (∃ r, boot lib = Except.ok r) :=
  ⟨⟨_, _, rfl⟩, ⟨_, rfl⟩⟩

/-- C8: the root composition is deterministic: renders against any two
ambient mutable worlds return identical element trees, namely one
provider holding the imported client value and wrapping the page. -/
theorem c8_render_deterministic (reg : Registry) (w₁ w₂ : World) :
    App reg w₁ = App reg w₂ ∧
    ∃ e, App reg w₁ = Except.ok e ∧
      providerClient e = some (importQueryClient reg) ∧ countPages e = 1 := by
  refine ⟨rfl, Element.provider reg.queryClient
      (ElementList.cons Element.homePage ElementList.nil), rfl, rfl, ?_⟩
  simp [countPages, countPagesL]

/-- C9: the client value the root composition installs in the provider is
the very module-level singleton exported by lib/queryClient.ts, every
importer of that module receives the same instance, and every later
operation of the running application still observes it. -/
theorem c9_provider_client_is_module_singleton (lib : LibraryDefaults)
    (w : World) (ops : List Op) :
    ∃ e, App { queryClient := bootClient lib } w = Except.ok e ∧
      providerClient e =
        some (importQueryClient { queryClient := bootClient lib }) ∧
      importQueryClient { queryClient := bootClient lib } = bootClient lib ∧
      (execTrace (postBootState lib) ops).1.client = bootClient lib :=
  ⟨Element.provider (bootClient lib)
      (ElementList.cons Element.homePage ElementList.nil),
    rfl, rfl, rfl, execTrace_client ops (postBootState lib)⟩

/-- C10: the construction in src/src/lib/queryClient.ts sets defaults
only under the queries key: the resolved mutation defaults and every
other configuration field of the client equal the library defaults. -/
theorem c10_only_query_defaults_set (lib : LibraryDefaults)
    (s : AllocState) :
    (newQueryClient lib appQueryClientConfig s).1.defaultOptions.mutations =
      lib.mutations ∧
    (newQueryClient lib appQueryClientConfig s).1.queryCacheId =
      lib.queryCacheId ∧
    (newQueryClient lib appQueryClientConfig s).1.mutationCacheId =
      lib.mutationCacheId :=
  ⟨rfl, rfl, rfl⟩
